import Mathlib

/-!
Shallow embedding of the configuration manager of the
Claude-Code-Router-Settings extension (class `ConfigManager`).

The configuration document is a JSON object; the `Router` member is kept
as a JSON object (an association list of keys to string-or-number values)
because the code manipulates it with the dynamic `in` operator and an
untyped assignment, not through the declared record type.  File-system
and network effects are made explicit: the configuration file on disk is
a `FileContent` value threaded through `loadConfig`/`saveConfig`, and the
model-fetch endpoint's reply is a status code plus a parsed body.
-/

namespace CCR

/-- A JSON scalar stored in the `Router` object: a string or a number. -/
inductive JValue where
  | s (v : String)
  | n (v : Int)
deriving DecidableEq, Repr

/-- A JSON object, as an association list in key order. -/
abbrev JsObj := List (String × JValue)

/-- Property lookup `obj[k]` on a JSON object (first matching key). -/
def jsGet (k : String) : JsObj → Option JValue
  | [] => none
  | (k', v) :: r => if k' = k then some v else jsGet k r

/-- The JavaScript `k in obj` test. -/
def jsHasKey (k : String) (o : JsObj) : Bool := (jsGet k o).isSome

/-- Property assignment `obj[k] = val`: overwrite an existing key in
place, otherwise append the key at the end. -/
def jsSet (k : String) (val : JValue) (o : JsObj) : JsObj :=
  if jsHasKey k o then o.map (fun p => if p.1 = k then (k, val) else p)
  else o ++ [(k, val)]

/-- One entry of a per-provider transformer `use` list: a bare plugin
name or a `[name, options]` pair. -/
inductive UseItem where
  | plain (name : String)
  | configured (name : String) (options : List (String × JValue))
deriving DecidableEq, Repr

/-- Per-provider `Transformer` block: a `use` list plus per-model scopes
(the interface's arbitrary extra keys, each holding its own `use` list). -/
structure Transformer where
  use : List UseItem
  perModel : List (String × List UseItem) := []
deriving DecidableEq, Repr

/-- Process-wide transformer entry: plugin path plus an option map. -/
structure TransformerConfig where
  path : String
  options : List (String × JValue)
deriving DecidableEq, Repr

/-- A provider record. -/
structure Provider where
  name : String
  api_base_url : String
  api_key : String
  fetch_model_api : Option String := none
  models : List String
  transformer : Option Transformer := none
deriving DecidableEq, Repr

/-- One style block of the `StatusLine` passthrough structure. -/
structure StatusLineStyle where
  modules : List String
deriving DecidableEq, Repr

/-- The `StatusLine` passthrough structure (never interpreted). -/
structure StatusLineConfig where
  enabled : Bool
  currentStyle : String
  defaultStyle : StatusLineStyle
  powerline : StatusLineStyle
deriving DecidableEq, Repr

/-- The configuration document.  `Router` is a JSON object because
`updateRouter`/`setRouterModel` treat it dynamically. -/
structure Config where
  LOG : Bool
  LOG_LEVEL : String
  CLAUDE_PATH : String
  HOST : String
  PORT : Int
  APIKEY : String
  API_TIMEOUT_MS : String
  PROXY_URL : String
  transformers : List TransformerConfig
  Providers : List Provider
  StatusLine : StatusLineConfig
  Router : JsObj
  CUSTOM_ROUTER_PATH : String
deriving DecidableEq, Repr

/-- A `Partial<Config>` patch for `updateConfig`: present fields override. -/
structure ConfigPatch where
  LOG : Option Bool := none
  LOG_LEVEL : Option String := none
  CLAUDE_PATH : Option String := none
  HOST : Option String := none
  PORT : Option Int := none
  APIKEY : Option String := none
  API_TIMEOUT_MS : Option String := none
  PROXY_URL : Option String := none
  transformers : Option (List TransformerConfig) := none
  Providers : Option (List Provider) := none
  StatusLine : Option StatusLineConfig := none
  Router : Option JsObj := none
  CUSTOM_ROUTER_PATH : Option String := none
deriving DecidableEq, Repr

/-- The mutable fields of a `ConfigManager` instance. -/
structure MState where
  config : Option Config
  ccrConfigPath : Option String
deriving DecidableEq, Repr

/-- Contents of the configuration file on disk: absent, present but not
valid JSON, or present and parsing to a document. -/
inductive FileContent where
  | missing
  | invalid
  | parsed (c : Config)
deriving DecidableEq, Repr

/-- Result value of `addProvider` and `restartCcr`. -/
structure OpResult where
  success : Bool
  message : String
deriving DecidableEq, Repr

/-- `getDefaultConfig()`: the hard-coded default document. -/
def getDefaultConfig : Config :=
  { LOG := true
    LOG_LEVEL := "warn"
    CLAUDE_PATH := ""
    HOST := "127.0.0.1"
    PORT := 3456
    APIKEY := ""
    API_TIMEOUT_MS := "600000"
    PROXY_URL := ""
    transformers := []
    Providers := []
    StatusLine :=
      { enabled := false
        currentStyle := "default"
        defaultStyle := { modules := [] }
        powerline := { modules := [] } }
    Router :=
      [ ("default", .s "")
      , ("background", .s "")
      , ("think", .s "")
      , ("longContext", .s "")
      , ("longContextThreshold", .n 60000)
      , ("webSearch", .s "")
      , ("image", .s "") ]
    CUSTOM_ROUTER_PATH := "" }

/-- `saveConfig()`: fails when no document or no path is held (or the
path is the empty, falsy string); otherwise overwrites the file with the
serialized document and reports success.  Returns the result together
with the file contents after the call. -/
def saveConfig (s : MState) (file : FileContent) : Bool × FileContent :=
  match s.config, s.ccrConfigPath with
  | some c, some p => if p = "" then (false, file) else (true, .parsed c)
  | _, _ => (false, file)

/-- `loadConfig()`: resolves the path, reads and parses the file.  A
parse (or read) failure on an existing file reports the error and
returns null, leaving the held document alone; a missing file installs
the default document and persists it before returning. -/
def loadConfig (resolvedPath : String) (file : FileContent) (s : MState) :
    MState × FileContent × Option Config :=
  let s1 : MState := { s with ccrConfigPath := some resolvedPath }
  if resolvedPath = "" then (s1, file, none)
  else
    match file with
    | .parsed c => ({ s1 with config := some c }, file, some c)
    | .invalid => (s1, file, none)
    | .missing =>
        let s2 : MState := { s1 with config := some getDefaultConfig }
        let saved := saveConfig s2 file
        (s2, saved.2, some getDefaultConfig)

/-- `getConfig()`. -/
def getConfig (s : MState) : Option Config := s.config

/-- `updateConfig(partial)`: spread-merge the patch over the held
document; no-op when none is held. -/
def updateConfig (patch : ConfigPatch) (s : MState) : MState :=
  match s.config with
  | none => s
  | some c =>
      let c' : Config :=
        { LOG := patch.LOG.getD c.LOG
          LOG_LEVEL := patch.LOG_LEVEL.getD c.LOG_LEVEL
          CLAUDE_PATH := patch.CLAUDE_PATH.getD c.CLAUDE_PATH
          HOST := patch.HOST.getD c.HOST
          PORT := patch.PORT.getD c.PORT
          APIKEY := patch.APIKEY.getD c.APIKEY
          API_TIMEOUT_MS := patch.API_TIMEOUT_MS.getD c.API_TIMEOUT_MS
          PROXY_URL := patch.PROXY_URL.getD c.PROXY_URL
          transformers := patch.transformers.getD c.transformers
          Providers := patch.Providers.getD c.Providers
          StatusLine := patch.StatusLine.getD c.StatusLine
          Router := patch.Router.getD c.Router
          CUSTOM_ROUTER_PATH := patch.CUSTOM_ROUTER_PATH.getD c.CUSTOM_ROUTER_PATH }
      { s with config := some c' }

/-- `addProvider(provider)`: rejects a name collision (exact string
match), otherwise pushes the provider at the end of the list. -/
def addProvider (p : Provider) (s : MState) : MState × OpResult :=
  match s.config with
  | none => (s, { success := false, message := "No config loaded" })
  | some c =>
      if c.Providers.any (fun q => q.name = p.name) then
        (s, { success := false
              message := "Provider \"" ++ p.name ++ "\" already exists" })
      else
        ({ s with config := some { c with Providers := c.Providers ++ [p] } },
         { success := true
           message := "Provider \"" ++ p.name ++ "\" added successfully" })

/-- `updateProvider(index, provider)`: replace in place when the index
denotes an existing element, otherwise do nothing. -/
def updateProvider (index : Int) (p : Provider) (s : MState) : MState :=
  match s.config with
  | none => s
  | some c =>
      if 0 ≤ index ∧ index < (c.Providers.length : Int) then
        let c' := { c with Providers := c.Providers.set index.toNat p }
        { s with config := some c' }
      else s

/-- `removeProvider(name)`: keep the providers whose name differs. -/
def removeProvider (name : String) (s : MState) : MState :=
  match s.config with
  | none => s
  | some c =>
      let c' := { c with Providers := c.Providers.filter (fun p => p.name ≠ name) }
      { s with config := some c' }

/-- `getProviderOptions()`: every `provider,model` reference string. -/
def getProviderOptions (s : MState) : List String :=
  match s.config with
  | none => []
  | some c => c.Providers.flatMap (fun p => p.models.map (fun m => p.name ++ "," ++ m))

/-- `updateRouter(routerKey, value)`: assign the string when the key is
present in the held document's Router object. -/
def updateRouter (routerKey : String) (value : String) (s : MState) : MState :=
  match s.config with
  | none => s
  | some c =>
      if jsHasKey routerKey c.Router then
        let c' := { c with Router := jsSet routerKey (.s value) c.Router }
        { s with config := some c' }
      else s

/-- `setRouterModel(routerKey, model)`: same body as `updateRouter`. -/
def setRouterModel (routerKey : String) (model : String) (s : MState) : MState :=
  match s.config with
  | none => s
  | some c =>
      if jsHasKey routerKey c.Router then
        let c' := { c with Router := jsSet routerKey (.s model) c.Router }
        { s with config := some c' }
      else s

/-- `addTransformer(config)`: push at the end. -/
def addTransformer (t : TransformerConfig) (s : MState) : MState :=
  match s.config with
  | none => s
  | some c => { s with config := some { c with transformers := c.transformers ++ [t] } }

/-- `updateTransformer(index, config)`: replace when `transformers[index]`
is defined, i.e. the index is in range; otherwise do nothing. -/
def updateTransformer (index : Int) (t : TransformerConfig) (s : MState) : MState :=
  match s.config with
  | none => s
  | some c =>
      if 0 ≤ index ∧ index < (c.transformers.length : Int) then
        let c' := { c with transformers := c.transformers.set index.toNat t }
        { s with config := some c' }
      else s

/-- `Array.prototype.splice(index, 1)`: a negative index counts from the
end (clamped at the front), an index past the end removes nothing. -/
def jsSplice1 {α : Type} (index : Int) (l : List α) : List α :=
  let len : Int := l.length
  let start : Nat := if index < 0 then (max (len + index) 0).toNat else (min index len).toNat
  l.take start ++ l.drop (start + 1)

/-- `removeTransformer(index)`: `splice(index, 1)` on the list. -/
def removeTransformer (index : Int) (s : MState) : MState :=
  match s.config with
  | none => s
  | some c => { s with config := some { c with transformers := jsSplice1 index c.transformers } }

/-- Platform default configuration path (non-Windows branch). -/
def ccrDefaultConfigPath : String := "/root/.claude-code-router/config.json"

/-- A manager state holding the document `c`. -/
def loadedState (c : Config) : MState :=
  { config := some c, ccrConfigPath := some ccrDefaultConfigPath }

/-- Providers of the held document (empty when none is held). -/
def providersOf (s : MState) : List Provider :=
  match s.config with
  | none => []
  | some c => c.Providers

/-- Router object of the held document (empty when none is held). -/
def routerOf (s : MState) : JsObj :=
  match s.config with
  | none => []
  | some c => c.Router

/-- Transformers of the held document (empty when none is held). -/
def transformersOf (s : MState) : List TransformerConfig :=
  match s.config with
  | none => []
  | some c => c.transformers

/-- Parsed body of the model-listing endpoint's reply: raw text that is
not JSON, or a JSON document that has a `data` array (`some` list, one
optional `id` per element) or lacks one (`none`). -/
inductive ApiBody where
  | invalid
  | json (data : Option (List (Option String)))
deriving DecidableEq, Repr

/-- Response handling of `fetchModelsFromApi`: on status 200 with a
`data` array, map out the `id` fields and keep the truthy ones; every
other case rejects. -/
def fetchModelsFromApi (statusCode : Nat) (body : ApiBody) : Except String (List String) :=
  if statusCode = 200 then
    match body with
    | .json (some data) =>
        .ok ((data.map (fun m => m.getD "")).filter (fun id => id ≠ ""))
    | .json none => .error "API returned incorrect model format"
    | .invalid => .error "Failed to parse API response"
  else .error "API request failed"

/-- The six enumerated router slot names. -/
def isRouterSlotName (k : String) : Bool :=
  k = "default" ∨ k = "background" ∨ k = "think" ∨
  k = "longContext" ∨ k = "webSearch" ∨ k = "image"

/-- The `provider,model` reference string (as built by
`getProviderOptions` and the quick-switch commands). -/
def joinModelRef (p m : String) : String := p ++ "," ++ m

/-- Split a character list at the first occurrence of `sep`. -/
def splitFirstAux (sep : Char) : List Char → List Char × List Char
  | [] => ([], [])
  | c :: cs =>
      if c = sep then ([], cs)
      else
        let r := splitFirstAux sep cs
        (c :: r.1, r.2)

/-- Modelled from the spec: the repository only ever joins `provider.name`
and a model name with `','`; the consuming side ("must be split/joined
consistently everywhere") is not under src/, so the split at the first
separator is taken from the spec's wording. -/
def splitModelRef (s : String) : String × String :=
  let r := splitFirstAux ',' s.data
  (String.mk r.1, String.mk r.2)

/-- The spec's reading of the model-fetch result: the non-empty `id`
values of the `data` array, in response order. -/
def specNonEmptyIds (data : List (Option String)) : List String :=
  data.filterMap (fun m =>
    match m with
    | some id => if id = "" then none else some id
    | none => none)

/-- A provider-list operation: one `addProvider` or `removeProvider` call. -/
inductive POp where
  | add (p : Provider)
  | remove (n : String)
deriving DecidableEq, Repr

/-- Apply one provider-list operation to a manager state. -/
def applyPOp (s : MState) (op : POp) : MState :=
  match op with
  | .add p => (addProvider p s).1
  | .remove n => removeProvider n s

/-- Apply a sequence of provider-list operations left to right. -/
def applyPOps (s : MState) (ops : List POp) : MState := ops.foldl applyPOp s

/-- A manager on which `loadConfig` has never succeeded. -/
def unloadedState : MState := { config := none, ccrConfigPath := none }

/-- Concrete provider used to instantiate the theorems. -/
def sampleProvider : Provider :=
  { name := "openai"
    api_base_url := "https://api.openai.com/v1"
    api_key := "k"
    models := ["gpt-4"] }

/-- Default document with `sampleProvider` already present. -/
def sampleConfig1 : Config := { getDefaultConfig with Providers := [sampleProvider] }

/-- Concrete transformer entries used to instantiate the theorems. -/
def sampleT1 : TransformerConfig := { path := "/opt/t1.js", options := [] }

/-- Second concrete transformer entry. -/
def sampleT2 : TransformerConfig := { path := "/opt/t2.js", options := [] }

/-- Default document with two transformers. -/
def sampleConfigT : Config := { getDefaultConfig with transformers := [sampleT1, sampleT2] }

/-- A document whose Router object holds only the `default` key, as a
parsed file may. -/
def routerNoThink : Config := { getDefaultConfig with Router := [("default", .s "")] }

/-- C3: if the configuration file exists but its contents fail to parse,
`loadConfig` returns a null result and the previously loaded in-memory
document is left exactly as it was before the call. -/
theorem loadConfig_parse_failure_preserves_state (s : MState) (c0 : Config)
    (resolvedPath : String) (h : s.config = some c0) :
    (loadConfig resolvedPath .invalid s).2.2 = none ∧
    (loadConfig resolvedPath .invalid s).1.config = some c0 := by
  by_cases hp : resolvedPath = "" <;> simp [loadConfig, hp, h]

/-- Witness for C3 at a concrete previously-loaded state. -/
theorem loadConfig_parse_failure_preserves_state_witness :
    (loadConfig ccrDefaultConfigPath .invalid (loadedState getDefaultConfig)).2.2 = none ∧
    (loadConfig ccrDefaultConfigPath .invalid
      (loadedState getDefaultConfig)).1.config = some getDefaultConfig :=
  loadConfig_parse_failure_preserves_state (loadedState getDefaultConfig)
    getDefaultConfig ccrDefaultConfigPath rfl

/-- C4: on a nonexistent configuration file, `loadConfig` installs the
hard-coded default document (empty providers and transformers, the six
router slots empty, threshold 60000, host 127.0.0.1, port 3456), writes
it to disk before returning, and returns it. -/
theorem loadConfig_missing_file_bootstrap (s : MState) (resolvedPath : String)
    (h : resolvedPath ≠ "") :
    (loadConfig resolvedPath .missing s).2.2 = some getDefaultConfig ∧
    (loadConfig resolvedPath .missing s).2.1 = .parsed getDefaultConfig ∧
    (loadConfig resolvedPath .missing s).1.config = some getDefaultConfig ∧
    getDefaultConfig.Providers = [] ∧
    getDefaultConfig.transformers = [] ∧
    jsGet "default" getDefaultConfig.Router = some (.s "") ∧
    jsGet "background" getDefaultConfig.Router = some (.s "") ∧
    jsGet "think" getDefaultConfig.Router = some (.s "") ∧
    jsGet "longContext" getDefaultConfig.Router = some (.s "") ∧
    jsGet "webSearch" getDefaultConfig.Router = some (.s "") ∧
    jsGet "image" getDefaultConfig.Router = some (.s "") ∧
    jsGet "longContextThreshold" getDefaultConfig.Router = some (.n 60000) ∧
    getDefaultConfig.HOST = "127.0.0.1" ∧
    getDefaultConfig.PORT = 3456 := by
  refine ⟨?_, ?_, ?_, by decide, by decide, by decide, by decide, by decide,
    by decide, by decide, by decide, by decide, by decide, by decide⟩ <;>
    simp [loadConfig, saveConfig, h]

/-- Witness for C4 at the default path. -/
theorem loadConfig_missing_file_bootstrap_witness :
    (loadConfig ccrDefaultConfigPath .missing unloadedState).2.2 = some getDefaultConfig ∧
    (loadConfig ccrDefaultConfigPath .missing unloadedState).2.1 =
      .parsed getDefaultConfig :=
  ⟨(loadConfig_missing_file_bootstrap unloadedState ccrDefaultConfigPath (by decide)).1,
   (loadConfig_missing_file_bootstrap unloadedState ccrDefaultConfigPath (by decide)).2.1⟩

/-- C8: with no document loaded, every mutating operation is a no-op or
returns a failure result, and the state stays unloaded. -/
theorem mutations_noop_when_unloaded (s : MState) (h : s.config = none)
    (p : Provider) (i : Int) (n k v : String) (t : TransformerConfig)
    (patch : ConfigPatch) (file : FileContent) :
    (addProvider p s).1 = s ∧ (addProvider p s).2.success = false ∧
    updateProvider i p s = s ∧
    removeProvider n s = s ∧
    updateRouter k v s = s ∧
    setRouterModel k v s = s ∧
    addTransformer t s = s ∧
    updateTransformer i t s = s ∧
    removeTransformer i s = s ∧
    updateConfig patch s = s ∧
    (saveConfig s file).1 = false ∧ (saveConfig s file).2 = file := by
  simp [addProvider, updateProvider, removeProvider, updateRouter, setRouterModel,
    addTransformer, updateTransformer, removeTransformer, updateConfig, saveConfig, h]

/-- Witness for C8 at the unloaded state. -/
theorem mutations_noop_when_unloaded_witness :
    (addProvider sampleProvider unloadedState).1 = unloadedState ∧
    (saveConfig unloadedState .missing).1 = false :=
  ⟨(mutations_noop_when_unloaded unloadedState rfl sampleProvider 0 "a" "default" "v"
      sampleT1 {} .missing).1,
   (mutations_noop_when_unloaded unloadedState rfl sampleProvider 0 "a" "default" "v"
      sampleT1 {} .missing).2.2.2.2.2.2.2.2.2.2.1⟩

/-- C2: `addProvider` with a name already present (exact match) fails
with the duplicate-provider message and leaves the provider list
unchanged; with a fresh name it appends the provider at the end. -/
theorem addProvider_duplicate_rejection (c : Config) (p : Provider) :
    ((∃ q ∈ c.Providers, q.name = p.name) →
      (addProvider p (loadedState c)).2.success = false ∧
      (addProvider p (loadedState c)).2.message =
        "Provider \"" ++ p.name ++ "\" already exists" ∧
      providersOf (addProvider p (loadedState c)).1 = c.Providers) ∧
    ((¬ ∃ q ∈ c.Providers, q.name = p.name) →
      (addProvider p (loadedState c)).2.success = true ∧
      providersOf (addProvider p (loadedState c)).1 = c.Providers ++ [p]) := by
  constructor
  · intro h
    have hany : c.Providers.any (fun q => q.name = p.name) = true := by
      rw [List.any_eq_true]
      obtain ⟨q, hq, he⟩ := h
      exact ⟨q, hq, by simp [he]⟩
    simp [addProvider, loadedState, providersOf, hany]
  · intro h
    have hany : c.Providers.any (fun q => q.name = p.name) = false := by
      rw [List.any_eq_false]
      intro q hq hqe
      exact h ⟨q, hq, by simpa using hqe⟩
    simp [addProvider, loadedState, providersOf, hany]

/-- Witness for C2: re-adding `sampleProvider` is rejected, adding it to
the empty default document appends it. -/
theorem addProvider_duplicate_rejection_witness :
    ((addProvider sampleProvider (loadedState sampleConfig1)).2.success = false ∧
      providersOf (addProvider sampleProvider (loadedState sampleConfig1)).1 =
        sampleConfig1.Providers) ∧
    providersOf (addProvider sampleProvider (loadedState getDefaultConfig)).1 =
      getDefaultConfig.Providers ++ [sampleProvider] :=
  ⟨⟨((addProvider_duplicate_rejection sampleConfig1 sampleProvider).1
      ⟨sampleProvider, by decide, rfl⟩).1,
    ((addProvider_duplicate_rejection sampleConfig1 sampleProvider).1
      ⟨sampleProvider, by decide, rfl⟩).2.2⟩,
   ((addProvider_duplicate_rejection getDefaultConfig sampleProvider).2
      (by decide)).2⟩

/-- The code's map-then-filter over the `data` array agrees with the
spec's description of the extracted model list. -/
lemma map_getD_filter_eq_specNonEmptyIds (data : List (Option String)) :
    (data.map (fun m => m.getD "")).filter (fun id => id ≠ "") = specNonEmptyIds data := by
  induction data with
  | nil => rfl
  | cons m ms ih =>
      simp only [ne_eq, decide_not] at ih
      cases m with
      | none => simpa [specNonEmptyIds] using ih
      | some id =>
          by_cases hid : id = "" <;> simp [specNonEmptyIds, hid, ih]

/-- C6: on a 200 response with a `data` array, `fetchModelsFromApi`
returns exactly the non-empty `id` values in response order; in
particular `{"data":[{"id":"m1"},{"id":"m2"},{"id":""}]}` yields
`["m1", "m2"]`. -/
theorem fetchModels_extracts_nonempty_ids :
    (∀ data : List (Option String),
      fetchModelsFromApi 200 (.json (some data)) = .ok (specNonEmptyIds data)) ∧
    fetchModelsFromApi 200 (.json (some [some "m1", some "m2", some ""])) =
      .ok ["m1", "m2"] := by
  constructor
  · intro data
    have hred : fetchModelsFromApi 200 (.json (some data)) =
        .ok ((data.map (fun m => m.getD "")).filter (fun id => id ≠ "")) := rfl
    rw [hred, map_getD_filter_eq_specNonEmptyIds]
  · rfl

/-- Splitting at the first separator undoes prepending a separator-free
prefix. -/
lemma splitFirstAux_append (sep : Char) (a b : List Char) (h : sep ∉ a) :
    splitFirstAux sep (a ++ sep :: b) = (a, b) := by
  induction a with
  | nil => simp [splitFirstAux]
  | cons c cs ih =>
      have hc : c ≠ sep := fun hc => h (hc ▸ List.mem_cons_self c cs)
      have hcs : sep ∉ cs := fun hm => h (List.mem_cons_of_mem c hm)
      simp [splitFirstAux, hc, ih hcs]

/-- C7: for a provider name and a model name free of the separator
character, joining them into the `provider,model` reference string and
splitting at the first separator recovers the pair exactly. -/
theorem modelRef_roundTrip (p m : String)
    (hp : ',' ∉ p.data) (hm : ',' ∉ m.data) :
    splitModelRef (joinModelRef p m) = (p, m) := by
  have hdata : (joinModelRef p m).data = p.data ++ ',' :: m.data := by
    simp [joinModelRef, String.data_append]
  simp [splitModelRef, hdata, splitFirstAux_append ',' p.data m.data hp]

/-- Witness for C7 on a concrete provider/model pair. -/
theorem modelRef_roundTrip_witness :
    splitModelRef (joinModelRef "openai" "gpt-4") = ("openai", "gpt-4") :=
  modelRef_roundTrip "openai" "gpt-4" (by decide) (by decide)

/-- C9: on a loaded document with a non-empty transformer list,
`removeTransformer` with a negative index removes an element (counted
from the end, so `-1` removes the last transformer), while
`updateTransformer` is a no-op for every out-of-range index. -/
theorem removeTransformer_negative_index (c : Config) (hne : c.transformers ≠ []) :
    (∀ index : Int, index < 0 →
      (transformersOf (removeTransformer index (loadedState c))).length =
        c.transformers.length - 1) ∧
    transformersOf (removeTransformer (-1) (loadedState c)) = c.transformers.dropLast ∧
    (∀ (index : Int) (t : TransformerConfig),
      index < 0 ∨ (c.transformers.length : Int) ≤ index →
      updateTransformer index t (loadedState c) = loadedState c) := by
  have hlen : 1 ≤ c.transformers.length := by
    cases hc : c.transformers with
    | nil => exact absurd hc hne
    | cons a l => simp
  refine ⟨?_, ?_, ?_⟩
  · intro index hidx
    have hstart :
        (if index < 0 then (max ((c.transformers.length : Int) + index) 0).toNat
          else (min index (c.transformers.length : Int)).toNat) <
        c.transformers.length := by
      rw [if_pos hidx]; omega
    simp only [removeTransformer, loadedState, transformersOf, jsSplice1]
    simp only [List.length_append, List.length_take, List.length_drop]
    omega
  · have hstart :
        (if (-1 : Int) < 0 then (max ((c.transformers.length : Int) + (-1)) 0).toNat
          else (min (-1 : Int) (c.transformers.length : Int)).toNat) =
        c.transformers.length - 1 := by
      rw [if_pos (by omega)]; omega
    simp only [removeTransformer, loadedState, transformersOf, jsSplice1]
    rw [hstart]
    have hdrop : c.transformers.drop (c.transformers.length - 1 + 1) = [] := by
      apply List.drop_eq_nil_of_le; omega
    rw [hdrop, List.append_nil, List.dropLast_eq_take]
  · intro index t hidx
    have hcond : ¬ (0 ≤ index ∧ index < (c.transformers.length : Int)) := by omega
    simp [updateTransformer, loadedState, hcond]

/-- Witness for C9 on a two-transformer document. -/
theorem removeTransformer_negative_index_witness :
    transformersOf (removeTransformer (-1) (loadedState sampleConfigT)) =
      sampleConfigT.transformers.dropLast ∧
    updateTransformer (-1) sampleT1 (loadedState sampleConfigT) =
      loadedState sampleConfigT :=
  ⟨(removeTransformer_negative_index sampleConfigT (by decide)).2.1,
   (removeTransformer_negative_index sampleConfigT (by decide)).2.2 (-1) sampleT1
     (Or.inl (by decide))⟩

/-- One-step unfolding of `jsGet` on a non-empty object. -/
lemma jsGet_cons (k a : String) (v : JValue) (r : JsObj) :
    jsGet k ((a, v) :: r) = if a = k then some v else jsGet k r := rfl

/-- Overwriting a present key puts the new value under that key. -/
lemma jsGet_map_replace (k : String) (val : JValue) (o : JsObj)
    (h : jsHasKey k o = true) :
    jsGet k (o.map (fun p => if p.1 = k then (k, val) else p)) = some val := by
  induction o with
  | nil => simp [jsHasKey, jsGet] at h
  | cons p r ih =>
      obtain ⟨a, b⟩ := p
      rw [List.map_cons]
      by_cases ha : a = k
      · have hhead : (if ((a, b) : String × JValue).1 = k then (k, val) else (a, b))
            = (k, val) := by simp [ha]
        rw [hhead, jsGet_cons, if_pos rfl]
      · have hhead : (if ((a, b) : String × JValue).1 = k then (k, val) else (a, b))
            = (a, b) := by simp [ha]
        have h' : jsHasKey k r = true := by
          simpa [jsHasKey, jsGet_cons, ha] using h
        rw [hhead, jsGet_cons, if_neg ha]
        exact ih h'

/-- Overwriting one key leaves every other key's value unchanged. -/
lemma jsGet_map_replace_ne (k k' : String) (val : JValue) (o : JsObj)
    (h : k' ≠ k) :
    jsGet k' (o.map (fun p => if p.1 = k then (k, val) else p)) = jsGet k' o := by
  induction o with
  | nil => rfl
  | cons p r ih =>
      obtain ⟨a, b⟩ := p
      rw [List.map_cons]
      by_cases ha : a = k
      · have hhead : (if ((a, b) : String × JValue).1 = k then (k, val) else (a, b))
            = (k, val) := by simp [ha]
        have hak' : ¬ a = k' := by rw [ha]; exact fun he => h he.symm
        rw [hhead, jsGet_cons, if_neg (fun he => h he.symm), jsGet_cons, if_neg hak']
        exact ih
      · have hhead : (if ((a, b) : String × JValue).1 = k then (k, val) else (a, b))
            = (a, b) := by simp [ha]
        rw [hhead, jsGet_cons, jsGet_cons]
        by_cases ha' : a = k'
        · rw [if_pos ha', if_pos ha']
        · rw [if_neg ha', if_neg ha']
          exact ih

/-- C5 as stated is false: `longContextThreshold` is not one of the six
slot names, yet `updateRouter` with it is not a no-op on the default
document's Router object. -/
theorem updateRouter_unrecognized_not_noop_cex :
    isRouterSlotName "longContextThreshold" = false ∧
    updateRouter "longContextThreshold" "oops" (loadedState getDefaultConfig) ≠
      loadedState getDefaultConfig ∧
    isRouterSlotName "think" = true ∧
    updateRouter "think" "openai,gpt-4" (loadedState routerNoThink) =
      loadedState routerNoThink := by
  decide

/-- C5 amended: `updateRouter` changes exactly the named key when that
key is present in the held document's Router object, leaving every other
key (the other slots and the threshold) unchanged; when the key is
absent the call is a no-op on the whole state. -/
theorem updateRouter_slot_isolation (c : Config) (slot v : String) :
    (jsHasKey slot c.Router = true →
      jsGet slot (routerOf (updateRouter slot v (loadedState c))) = some (.s v) ∧
      ∀ k, k ≠ slot →
        jsGet k (routerOf (updateRouter slot v (loadedState c))) = jsGet k c.Router) ∧
    (jsHasKey slot c.Router = false →
      updateRouter slot v (loadedState c) = loadedState c) := by
  constructor
  · intro h
    have hru : routerOf (updateRouter slot v (loadedState c)) =
        c.Router.map (fun p => if p.1 = slot then (slot, .s v) else p) := by
      simp [updateRouter, loadedState, routerOf, jsSet, h]
    rw [hru]
    exact ⟨jsGet_map_replace slot (.s v) c.Router h,
      fun k hk => jsGet_map_replace_ne slot k (.s v) c.Router hk⟩
  · intro h
    simp [updateRouter, loadedState, h]

/-- Witness for the amended C5 on the default document. -/
theorem updateRouter_slot_isolation_witness :
    jsGet "think" (routerOf (updateRouter "think" "openai,gpt-4"
      (loadedState getDefaultConfig))) = some (.s "openai,gpt-4") ∧
    jsGet "longContextThreshold" (routerOf (updateRouter "think" "openai,gpt-4"
      (loadedState getDefaultConfig))) =
      jsGet "longContextThreshold" getDefaultConfig.Router :=
  ⟨((updateRouter_slot_isolation getDefaultConfig "think" "openai,gpt-4").1
      (by decide)).1,
   ((updateRouter_slot_isolation getDefaultConfig "think" "openai,gpt-4").1
      (by decide)).2 "longContextThreshold" (by decide)⟩

/-- C10: the guard of `updateRouter` only checks key presence, so the
numeric `longContextThreshold` entry is overwritten with the given
string whenever its key is present; a genuine slot name that is absent
from the held Router object is silently ignored; and `setRouterModel`
behaves identically to `updateRouter`. -/
theorem updateRouter_key_presence_guard (c : Config) (v : String) (slot : String) :
    (jsHasKey "longContextThreshold" c.Router = true →
      jsGet "longContextThreshold" (routerOf (updateRouter "longContextThreshold" v
        (loadedState c))) = some (.s v)) ∧
    (isRouterSlotName slot = true → jsHasKey slot c.Router = false →
      updateRouter slot v (loadedState c) = loadedState c) ∧
    (∀ (k m : String) (s : MState), setRouterModel k m s = updateRouter k m s) := by
  refine ⟨?_, ?_, ?_⟩
  · intro h
    have hru : routerOf (updateRouter "longContextThreshold" v (loadedState c)) =
        c.Router.map (fun p =>
          if p.1 = "longContextThreshold" then ("longContextThreshold", .s v) else p) := by
      simp [updateRouter, loadedState, routerOf, jsSet, h]
    rw [hru]
    exact jsGet_map_replace "longContextThreshold" (.s v) c.Router h
  · intro _ h
    simp [updateRouter, loadedState, h]
  · intro k m s
    rfl

/-- Witness for C10: the threshold of the default document is replaced
by a string, and a missing `think` key makes the call a no-op. -/
theorem updateRouter_key_presence_guard_witness :
    jsGet "longContextThreshold" (routerOf (updateRouter "longContextThreshold" "60k"
      (loadedState getDefaultConfig))) = some (.s "60k") ∧
    updateRouter "think" "m" (loadedState routerNoThink) = loadedState routerNoThink :=
  ⟨(updateRouter_key_presence_guard getDefaultConfig "60k" "think").1 (by decide),
   (updateRouter_key_presence_guard routerNoThink "m" "think").2.1 (by decide) (by decide)⟩

/-- One `addProvider`/`removeProvider` call keeps the provider names
distinct. -/
lemma namesNodup_applyPOp (s : MState) (op : POp)
    (h : ((providersOf s).map Provider.name).Nodup) :
    ((providersOf (applyPOp s op)).map Provider.name).Nodup := by
  cases op with
  | add p =>
      cases hc : s.config with
      | none => simpa [applyPOp, addProvider, hc] using h
      | some c =>
          by_cases hany : c.Providers.any (fun q => q.name = p.name) = true
          · simpa [applyPOp, addProvider, hc, hany] using h
          · rw [Bool.not_eq_true] at hany
            have hn : (c.Providers.map Provider.name).Nodup := by
              simpa [providersOf, hc] using h
            have hnotmem : p.name ∉ c.Providers.map Provider.name := by
              intro hmem
              obtain ⟨q, hq, he⟩ := List.mem_map.mp hmem
              have hq' := List.any_eq_false.mp hany q hq
              simp [he] at hq'
            have hres : providersOf (applyPOp s (POp.add p)) = c.Providers ++ [p] := by
              simp [applyPOp, addProvider, hc, hany, providersOf]
            rw [hres, List.map_append]
            refine hn.append (List.nodup_singleton _) ?_
            intro x hx hmem
            simp only [List.map_cons, List.map_nil, List.mem_singleton] at hmem
            subst hmem
            exact hnotmem hx
  | remove n =>
      cases hc : s.config with
      | none => simpa [applyPOp, removeProvider, hc] using h
      | some c =>
          have hn : (c.Providers.map Provider.name).Nodup := by
            simpa [providersOf, hc] using h
          have hres : providersOf (applyPOp s (POp.remove n)) =
              c.Providers.filter (fun p => p.name ≠ n) := by
            simp [applyPOp, removeProvider, hc, providersOf]
          rw [hres]
          exact hn.sublist ((List.filter_sublist _).map Provider.name)

/-- Any sequence of provider-list operations keeps the names distinct. -/
lemma namesNodup_applyPOps (ops : List POp) (s : MState)
    (h : ((providersOf s).map Provider.name).Nodup) :
    ((providersOf (applyPOps s ops)).map Provider.name).Nodup := by
  induction ops generalizing s with
  | nil => exact h
  | cons op ops ih => exact ih (applyPOp s op) (namesNodup_applyPOp s op h)

/-- Distinct names bound the matches of one name by one. -/
lemma filter_name_length_le_one (ps : List Provider) (n : String)
    (h : (ps.map Provider.name).Nodup) :
    (ps.filter (fun p => p.name = n)).length ≤ 1 := by
  induction ps with
  | nil => simp
  | cons p ps ih =>
      rw [List.map_cons, List.nodup_cons] at h
      by_cases hp : p.name = n
      · have hnil : ps.filter (fun q => q.name = n) = [] := by
          rw [List.filter_eq_nil_iff]
          intro q hq
          simp only [decide_eq_true_eq]
          intro hqn
          have hmem : q.name ∈ ps.map Provider.name :=
            List.mem_map_of_mem Provider.name hq
          rw [hqn, ← hp] at hmem
          exact h.1 hmem
        rw [List.filter_cons]
        simp [hp, hnil]
      · rw [List.filter_cons]
        simp only [hp, decide_eq_true_eq, if_neg]
        simpa [hp] using ih h.2

/-- C1: starting from any document with distinct provider names, after
any sequence of `addProvider`/`removeProvider` calls at most one
provider carries any given name. -/
theorem provider_names_unique_after_ops (c : Config) (ops : List POp) (n : String)
    (h : (c.Providers.map Provider.name).Nodup) :
    ((providersOf (applyPOps (loadedState c) ops)).filter
      (fun p => p.name = n)).length ≤ 1 :=
  filter_name_length_le_one _ n
    (namesNodup_applyPOps ops (loadedState c)
      (by simpa [providersOf, loadedState] using h))

/-- Witness for C1: two duplicate adds and a remove on the default
document. -/
theorem provider_names_unique_after_ops_witness :
    ((providersOf (applyPOps (loadedState getDefaultConfig)
      [POp.add sampleProvider, POp.add sampleProvider, POp.remove "x"])).filter
      (fun p => p.name = "openai")).length ≤ 1 :=
  provider_names_unique_after_ops getDefaultConfig
    [POp.add sampleProvider, POp.add sampleProvider, POp.remove "x"] "openai"
    (by decide)

end CCR
